import Mathlib

/-!
Verification development for the Dowel-Steek repository.

Two subsystems are embedded:

1. The display/framebuffer engine declared in
   `src/stash/display-system/zig-out/include/dowel-display/dowel_display.h`.
   The repository ships only the C header (declarations); the implementation
   is absent, so the stateful behaviour is modelled from the specification's
   own words (spec.md sections 3, 4, 7) and each such definition is marked
   `Modelled from the spec:` in its doc comment.

2. The Kotlin-interop C wrapper `src/kotlin-zig-demo/c_wrapper.c`, whose
   bodies are present in the repository and are embedded directly.

Machine integers are embedded as `Nat`/`Int`; C strings are `Option`s of
NUL-free byte lists (`none` models a NULL pointer); the `float` brightness
is embedded as `ℚ`, which is exact on every value the claims mention.
-/

/-! ## Rectangles (`DowelRect`, header lines 53-58) -/

/-- Rectangle structure from the header: x, y, width, height, all u32. -/
structure DowelRect where
  x : Nat
  y : Nat
  width : Nat
  height : Nat
deriving DecidableEq, Repr

/-- Modelled from the spec: `dowel_rect_intersect` has no body in the
repository.  Spec 4.2: "standard axis-aligned intersection; returns false
with an unspecified/zeroed result rect when the rectangles do not overlap
(including when they merely touch at an edge)".  The zeroed variant is
chosen for the no-overlap result. -/
def dowel_rect_intersect (rect1 rect2 : DowelRect) : Bool × DowelRect :=
  let ix := max rect1.x rect2.x
  let iy := max rect1.y rect2.y
  let ir := min (rect1.x + rect1.width) (rect2.x + rect2.width)
  let ib := min (rect1.y + rect1.height) (rect2.y + rect2.height)
  if ix < ir ∧ iy < ib then
    (true, ⟨ix, iy, ir - ix, ib - iy⟩)
  else
    (false, ⟨0, 0, 0, 0⟩)

/-- Modelled from the spec: `dowel_rect_contains` has no body in the
repository.  Spec 4.2: true iff x in [rect.x, rect.x+rect.width) and
y in [rect.y, rect.y+rect.height). -/
def dowel_rect_contains (rect : DowelRect) (x y : Nat) : Bool :=
  rect.x ≤ x ∧ x < rect.x + rect.width ∧ rect.y ≤ y ∧ y < rect.y + rect.height

/-- The closed boxes [x, x+width] × [y, y+height] of the two rectangles
meet (the geometric notion of touching used by the spec). -/
def rectTouches (a b : DowelRect) : Prop :=
  max a.x b.x ≤ min (a.x + a.width) (b.x + b.width) ∧
  max a.y b.y ≤ min (a.y + a.height) (b.y + b.height)

/-- The open interiors (x, x+width) × (y, y+height) of the two rectangles
meet: a strict overlap. -/
def rectOverlaps (a b : DowelRect) : Prop :=
  max a.x b.x < min (a.x + a.width) (b.x + b.width) ∧
  max a.y b.y < min (a.y + a.height) (b.y + b.height)

/-- Two rectangles share only an edge: their boundaries touch but their
interiors are disjoint. -/
def sharesOnlyEdge (a b : DowelRect) : Prop :=
  rectTouches a b ∧ ¬ rectOverlaps a b

instance (a b : DowelRect) : Decidable (rectTouches a b) := by
  unfold rectTouches; infer_instance

instance (a b : DowelRect) : Decidable (rectOverlaps a b) := by
  unfold rectOverlaps; infer_instance

instance (a b : DowelRect) : Decidable (sharesOnlyEdge a b) := by
  unfold sharesOnlyEdge; infer_instance

/-! ## Core wrapper state (`src/kotlin-zig-demo/c_wrapper.c`) -/

/-- State of the C wrapper's `static bool system_initialized` flag. -/
abbrev CoreState := Bool

/-- Embeds `dowel_core_init` (c_wrapper.c lines 15-19): sets the flag and
returns 0 (`DOWEL_SUCCESS`); the `printf` side effect is outside the state. -/
def dowel_core_init (_s : CoreState) : Int × CoreState :=
  (0, true)

/-- Embeds `dowel_core_shutdown` (c_wrapper.c lines 21-24): clears the flag. -/
def dowel_core_shutdown (_s : CoreState) : CoreState :=
  false

/-- Embeds `dowel_core_is_initialized` (c_wrapper.c lines 26-28). -/
def dowel_core_is_initialized (s : CoreState) : Bool :=
  s

/-! ## C strings and `dowel_string_length` -/

/-- Length of a C string presented as a byte list: the number of bytes
before the first NUL, as `strlen` computes it. -/
def strlen (bytes : List Nat) : Nat :=
  (bytes.takeWhile (fun b => b ≠ 0)).length

/-- Embeds `dowel_string_length` (c_wrapper.c lines 47-50): a NULL pointer
(`none`) yields 0, otherwise the `strlen` of the string. -/
def dowel_string_length (str : Option (List Nat)) : Int :=
  match str with
  | none => 0
  | some s => (strlen s : Int)

/-! ## Config store (`dowel_config_set_string` / `dowel_config_get_string`)

The wrapper keeps a single `static char config_buffer[1024]`; the state is
embedded as the NUL-free byte content of that buffer (at most 1023 bytes,
the capacity `snprintf` leaves after the terminator). -/

/-- State of the wrapper's `config_buffer`: its content before the NUL. -/
abbrev ConfigState := List Nat

/-- Embeds `dowel_config_set_string` (c_wrapper.c lines 92-97): NULL key or
value fails with -1 and leaves the buffer alone; otherwise `snprintf`
copies the value, truncated to the 1023 bytes that fit, and returns 0. -/
def dowel_config_set_string (key value : Option (List Nat)) (s : ConfigState) :
    Int × ConfigState :=
  match key, value with
  | some _, some v => (0, v.take 1023)
  | _, _ => (-1, s)

/-- Embeds `dowel_config_get_string` (c_wrapper.c lines 99-106): NULL key
returns the default; otherwise the stored buffer when it is non-empty,
else the default.  The key is never consulted beyond the NULL check. -/
def dowel_config_get_string (key : Option (List Nat)) (default_value : List Nat)
    (s : ConfigState) : List Nat :=
  match key with
  | none => default_value
  | some _ => if s.length > 0 then s else default_value

/-! ## Display engine data model (dowel_display.h, spec-modelled behaviour)

The header declares the display API but the repository ships no
implementation, so every stateful behaviour below is modelled from the
spec's words (spec.md sections 3, 4.1-4.3, 7). -/

/-- Error kinds: the header enum (lines 12-22) plus the spec's section 7
taxonomy, which also names `NotInitialized` and `InvalidParameter`
("kind, not type name"); `Success` is the 0 code. -/
inductive DowelDisplayError
  | Success
  | InitFailed
  | WindowCreationFailed
  | RendererCreationFailed
  | TextureCreationFailed
  | InvalidDimensions
  | OutOfMemory
  | UnsupportedFormat
  | DeviceNotAvailable
  | NotInitialized
  | InvalidParameter
deriving DecidableEq, Repr

/-- Pixel format enum from the header (lines 25-30). -/
inductive DowelPixelFormat
  | RGBA8888
  | RGB888
  | RGB565
  | ARGB8888
deriving DecidableEq, Repr

/-- Bytes per pixel of each format (spec 3: bytes-per-pixel(format)). -/
def bytesPerPixel : DowelPixelFormat → Nat
  | .RGBA8888 => 4
  | .RGB888 => 3
  | .RGB565 => 2
  | .ARGB8888 => 4

/-- Color structure from the header (lines 45-50): r, g, b, a each 0-255. -/
structure DowelColor where
  r : Nat
  g : Nat
  b : Nat
  a : Nat
deriving DecidableEq, Repr

/-- The transparent-black sentinel returned for out-of-range reads
(spec 4.1). -/
def transparentBlack : DowelColor := ⟨0, 0, 0, 0⟩

/-- Display configuration structure from the header (lines 33-42). -/
structure DowelDisplayConfig where
  width : Nat
  height : Nat
  refresh_rate : Nat
  pixel_format : DowelPixelFormat
  vsync : Bool
  fullscreen : Bool
  resizable : Bool
deriving DecidableEq, Repr

/-- Display metrics structure from the header (lines 61-67); the float
fields are embedded as `ℚ`. -/
structure DowelDisplayMetrics where
  frame_count : Nat
  fps : ℚ
  frame_time_ms : ℚ
  render_time_ms : ℚ
  memory_usage_bytes : Nat
deriving DecidableEq, Repr

/-- Modelled from the spec: the DisplaySurface state (spec 3), the stateful
root the header's `dowel_display_*` functions mutate.  The pixel buffer is
the row-major list of pixels (length width × height once initialized);
times are ℚ timestamps in milliseconds supplied by the caller of
`present`, standing for the external clock. -/
structure DisplaySurface where
  initialized : Bool
  width : Nat
  height : Nat
  refresh_rate : Nat
  pixel_format : DowelPixelFormat
  vsync : Bool
  buffer : List DowelColor
  rotation : Nat
  brightness : ℚ
  frame_count : Nat
  present_times : List ℚ
  render_accum : ℚ
deriving DecidableEq, Repr

/-- Size of the sliding window of present timestamps (spec 4.4: "a small
sliding window (fixed-size ring, e.g. last N present timestamps)"). -/
def metricsRingSize : Nat := 60

/-- The uninitialized surface: all state at rest (spec 4.3: `shutdown`
"resets all state to uninitialized"). -/
def surface0 : DisplaySurface :=
  { initialized := false
    width := 0
    height := 0
    refresh_rate := 0
    pixel_format := .RGBA8888
    vsync := false
    buffer := []
    rotation := 0
    brightness := 1
    frame_count := 0
    present_times := []
    render_accum := 0 }

/-! ## Display engine operations (spec-modelled) -/

/-- Modelled from the spec: `dowel_display_init` (header line 86).
Spec 4.3/7: zero width or height fails fast with `InvalidDimensions` and
leaves state unchanged; otherwise the surface becomes Initialized with a
freshly allocated PixelBuffer, rotation 0 and full brightness; re-init
reconfigures rather than failing. -/
def dowel_display_init (config : DowelDisplayConfig) (s : DisplaySurface) :
    DowelDisplayError × DisplaySurface :=
  if config.width = 0 ∨ config.height = 0 then
    (.InvalidDimensions, s)
  else
    (.Success,
      { initialized := true
        width := config.width
        height := config.height
        refresh_rate := config.refresh_rate
        pixel_format := config.pixel_format
        vsync := config.vsync
        buffer := List.replicate (config.width * config.height) transparentBlack
        rotation := 0
        brightness := 1
        frame_count := 0
        present_times := []
        render_accum := 0 })

/-- Modelled from the spec: `dowel_display_shutdown` (header line 91).
Spec 4.3: transitions to Uninitialized, releasing the PixelBuffer and
resetting all state; calling it twice is a no-op. -/
def dowel_display_shutdown (_s : DisplaySurface) : DisplaySurface :=
  surface0

/-- Embeds `dowel_display_is_initialized` (header line 97). -/
def dowel_display_is_initialized (s : DisplaySurface) : Bool :=
  s.initialized

/-- Modelled from the spec: `dowel_display_get_dimensions` (header line
104).  Spec 4.3: a 90/270 rotation swaps the logical width/height exposed
to callers. -/
def dowel_display_get_dimensions (s : DisplaySurface) : Nat × Nat :=
  if s.rotation = 90 ∨ s.rotation = 270 then (s.height, s.width)
  else (s.width, s.height)

/-- Bounds-checked buffer write (spec 4.1): out-of-range coordinates
(x ≥ width or y ≥ height) are a silent no-op. -/
def writePixel (x y : Nat) (color : DowelColor) (s : DisplaySurface) :
    DisplaySurface :=
  if x < s.width ∧ y < s.height then
    { s with buffer := s.buffer.set (y * s.width + x) color }
  else
    s

/-- Modelled from the spec: the PixelBuffer's bounds-checked `get_pixel`
(spec 4.1): out-of-range reads return the transparent-black sentinel. -/
def dowel_display_get_pixel (x y : Nat) (s : DisplaySurface) : DowelColor :=
  if x < s.width ∧ y < s.height then
    s.buffer.getD (y * s.width + x) transparentBlack
  else
    transparentBlack

/-- Modelled from the spec: `dowel_display_clear` (header line 130).
Spec 4.2/7: before `init` it fails with `NotInitialized` and performs no
side effect; otherwise it writes the color to every pixel. -/
def dowel_display_clear (color : DowelColor) (s : DisplaySurface) :
    DowelDisplayError × DisplaySurface :=
  if s.initialized then
    (.Success, { s with buffer := List.replicate (s.width * s.height) color })
  else
    (.NotInitialized, s)

/-- Modelled from the spec: `dowel_display_set_pixel` (header line 138).
Spec 4.1/7: fails with `NotInitialized` before `init`; in-bounds writes
the pixel; out-of-range is a silent no-op, not an error. -/
def dowel_display_set_pixel (x y : Nat) (color : DowelColor)
    (s : DisplaySurface) : DowelDisplayError × DisplaySurface :=
  if s.initialized then
    (.Success, writePixel x y color s)
  else
    (.NotInitialized, s)

/-- The pixel writes of a rectangle fill: every coordinate of the rect
goes through the bounds-checked write, which performs the clipping of
spec 4.2. -/
def fillRectPixels (rect : DowelRect) (color : DowelColor)
    (s : DisplaySurface) : DisplaySurface :=
  (List.range rect.height).foldl
    (fun acc j =>
      (List.range rect.width).foldl
        (fun acc2 i => writePixel (rect.x + i) (rect.y + j) color acc2)
        acc)
    s

/-- Modelled from the spec: `dowel_display_fill_rect` (header line 145).
Spec 4.2: clips the rect to buffer bounds, then writes; a zero-area result
is a no-op.  Each pixel goes through the bounds-checked write, which
performs exactly that clipping. -/
def dowel_display_fill_rect (rect : DowelRect) (color : DowelColor)
    (s : DisplaySurface) : DowelDisplayError × DisplaySurface :=
  if s.initialized then
    (.Success, fillRectPixels rect color s)
  else
    (.NotInitialized, s)

/-- One Bresenham step state: current point and error term. -/
structure BresState where
  x : Int
  y : Int
  err : Int
deriving Repr

/-- Plot one Bresenham sample through the bounds-checked write
(spec 4.2: "each sample point passes through the same bounds-checked
`set_pixel`"). -/
def plotInt (x y : Int) (color : DowelColor) (s : DisplaySurface) :
    DisplaySurface :=
  if 0 ≤ x ∧ 0 ≤ y then writePixel x.toNat y.toNat color s else s

/-- Bresenham loop with explicit fuel (the loop runs at most
dx + dy + 1 iterations). -/
def bresLoop (fuel : Nat) (st : BresState) (x1 y1 sx sy dx dy : Int)
    (color : DowelColor) (s : DisplaySurface) : DisplaySurface :=
  match fuel with
  | 0 => s
  | fuel + 1 =>
    let s' := plotInt st.x st.y color s
    if st.x = x1 ∧ st.y = y1 then s'
    else
      let e2 := 2 * st.err
      let st1 := if e2 ≥ dy then { st with err := st.err + dy, x := st.x + sx }
                 else st
      let st2 := if e2 ≤ dx then { st1 with err := st1.err + dx, y := st1.y + sy }
                 else st1
      bresLoop fuel st2 x1 y1 sx sy dx dy color s'

/-- Modelled from the spec: `dowel_display_draw_line` (header line 155).
Spec 4.2: Bresenham's algorithm, integer-only; every sample point passes
through the bounds-checked pixel write, so a partially off-screen line
draws only its visible segment.  Fails with `NotInitialized` before
`init` (spec 7). -/
def dowel_display_draw_line (x0 y0 x1 y1 : Nat) (color : DowelColor)
    (s : DisplaySurface) : DowelDisplayError × DisplaySurface :=
  if s.initialized then
    let dx : Int := (Int.ofNat x1 - Int.ofNat x0).natAbs
    let dy : Int := -((Int.ofNat y1 - Int.ofNat y0).natAbs : Int)
    let sx : Int := if x0 < x1 then 1 else -1
    let sy : Int := if y0 < y1 then 1 else -1
    let fuel := (Int.ofNat x1 - Int.ofNat x0).natAbs +
                (Int.ofNat y1 - Int.ofNat y0).natAbs + 1
    (.Success,
      bresLoop fuel ⟨Int.ofNat x0, Int.ofNat y0, dx + dy⟩
        (Int.ofNat x1) (Int.ofNat y1) sx sy dx dy color s)
  else
    (.NotInitialized, s)

/-- Read one RGBA8888 source pixel of a blit from the byte list at the
given byte offset (missing bytes read as 0). -/
def blitSourcePixel (data : List Nat) (base : Nat) : DowelColor :=
  ⟨data.getD base 0, data.getD (base + 1) 0,
   data.getD (base + 2) 0, data.getD (base + 3) 0⟩

/-- Modelled from the spec: `dowel_display_blit` (header lines 166-167).
Spec 4.2: copies a source buffer of the given byte pitch row-by-row into
the destination at (x, y), clipping destination-out-of-bounds rows and
columns through the bounds-checked write; the source is RGBA8888. -/
def blitPixels (x y width height : Nat) (data : List Nat) (pitch : Nat)
    (s : DisplaySurface) : DisplaySurface :=
  (List.range height).foldl
    (fun acc j =>
      (List.range width).foldl
        (fun acc2 i =>
          writePixel (x + i) (y + j)
            (blitSourcePixel data (j * pitch + 4 * i)) acc2)
        acc)
    s

/-- Modelled from the spec: `dowel_display_blit` (header lines 166-167),
continued: fails with `NotInitialized` before `init` (spec 7), otherwise
performs the row-by-row clipped copy. -/
def dowel_display_blit (x y width height : Nat) (data : List Nat)
    (pitch : Nat) (s : DisplaySurface) : DowelDisplayError × DisplaySurface :=
  if s.initialized then
    (.Success, blitPixels x y width height data pitch s)
  else
    (.NotInitialized, s)

/-- Modelled from the spec: `dowel_display_present` (header line 175),
taking the external clock's current time as a parameter.  Spec 4.3/4.4:
samples the metrics tracker (pushes the timestamp into the sliding
window, increments frame_count, resets the render-time accumulator) and
hands the buffer to the backend; it never mutates pixel content.  The
vsync wait only shapes real time and has no state effect.  Fails with
`NotInitialized` before `init` (spec 7). -/
def dowel_display_present (now : ℚ) (s : DisplaySurface) :
    DowelDisplayError × DisplaySurface :=
  if s.initialized then
    (.Success,
      { s with frame_count := s.frame_count + 1
               present_times := (now :: s.present_times).take metricsRingSize
               render_accum := 0 })
  else
    (.NotInitialized, s)

/-- Fps over the timestamp window (spec 4.4: N / (t_last - t_first),
most-recent-first ring). -/
def ringFps (ring : List ℚ) : ℚ :=
  match ring with
  | [] => 0
  | [_] => 0
  | t :: rest => (ring.length : ℚ) / (t - rest.getLastD t)

/-- Frame time: delta of the two most recent present timestamps
(spec 4.4). -/
def ringFrameTime (ring : List ℚ) : ℚ :=
  match ring with
  | t :: prev :: _ => t - prev
  | _ => 0

/-- Modelled from the spec: `dowel_display_get_metrics` (header line 203),
returned by value rather than through an output pointer.  Fails with
`NotInitialized` before `init` (spec 7); otherwise reports frame count,
windowed fps, frame time, accumulated render time and the buffer's
memory footprint. -/
def dowel_display_get_metrics (s : DisplaySurface) :
    DowelDisplayError × Option DowelDisplayMetrics :=
  if s.initialized then
    (.Success, some
      { frame_count := s.frame_count
        fps := ringFps s.present_times
        frame_time_ms := ringFrameTime s.present_times
        render_time_ms := s.render_accum
        memory_usage_bytes := bytesPerPixel s.pixel_format * s.width * s.height })
  else
    (.NotInitialized, none)

/-- Modelled from the spec: `dowel_display_reset_metrics` (header line
208).  Spec 4.4: zeroes frame_count, clears the ring and zeroes the
accumulators without touching drawing state; a stateful operation, so it
fails with `NotInitialized` before `init` (spec 7). -/
def dowel_display_reset_metrics (s : DisplaySurface) :
    DowelDisplayError × DisplaySurface :=
  if s.initialized then
    (.Success, { s with frame_count := 0, present_times := [], render_accum := 0 })
  else
    (.NotInitialized, s)

/-- Modelled from the spec: `dowel_display_set_brightness` (header line
217).  Spec 4.3 invariant and section 8: the stored brightness is clamped
into [0.0, 1.0].  Fails with `NotInitialized` before `init` (spec 7). -/
def dowel_display_set_brightness (brightness : ℚ) (s : DisplaySurface) :
    DowelDisplayError × DisplaySurface :=
  if s.initialized then
    (.Success, { s with brightness := max 0 (min 1 brightness) })
  else
    (.NotInitialized, s)

/-- Embeds `dowel_display_get_brightness` (header line 223): the level in
[0.0, 1.0], or -1.0 on error (not initialized). -/
def dowel_display_get_brightness (s : DisplaySurface) : ℚ :=
  if s.initialized then s.brightness else -1

/-- Modelled from the spec: `dowel_display_set_rotation` (header line
230).  Spec 4.3: accepts only {0, 90, 180, 270}; any other value fails
with `InvalidParameter` and leaves state unchanged.  Fails with
`NotInitialized` before `init` (spec 7). -/
def dowel_display_set_rotation (rotation : Int) (s : DisplaySurface) :
    DowelDisplayError × DisplaySurface :=
  if s.initialized then
    if rotation = 0 ∨ rotation = 90 ∨ rotation = 180 ∨ rotation = 270 then
      (.Success, { s with rotation := rotation.toNat })
    else
      (.InvalidParameter, s)
  else
    (.NotInitialized, s)

/-- Embeds `dowel_display_get_rotation` (header line 236): the rotation in
degrees, or -1 on error (not initialized). -/
def dowel_display_get_rotation (s : DisplaySurface) : Int :=
  if s.initialized then (s.rotation : Int) else -1

/-- Modelled from the spec: `dowel_display_set_vsync` (header line 243).
Runtime vsync toggle (spec 3); a stateful operation, so it fails with
`NotInitialized` before `init` (spec 7). -/
def dowel_display_set_vsync (enabled : Bool) (s : DisplaySurface) :
    DowelDisplayError × DisplaySurface :=
  if s.initialized then
    (.Success, { s with vsync := enabled })
  else
    (.NotInitialized, s)

/-! ## The operation alphabet of the display state machine -/

/-- One caller-visible mutating operation of the display engine
(spec 4.3: "mutated by every drawing/config-setter call"), with the
argument data each operation consumes. -/
inductive DisplayOp where
  | opInit (config : DowelDisplayConfig)
  | opShutdown
  | opClear (color : DowelColor)
  | opSetPixel (x y : Nat) (color : DowelColor)
  | opFillRect (rect : DowelRect) (color : DowelColor)
  | opDrawLine (x0 y0 x1 y1 : Nat) (color : DowelColor)
  | opBlit (x y width height : Nat) (data : List Nat) (pitch : Nat)
  | opPresent (now : ℚ)
  | opResetMetrics
  | opSetBrightness (b : ℚ)
  | opSetRotation (deg : Int)
  | opSetVsync (enabled : Bool)

/-- The state transition of each operation (the error outcome dropped). -/
def applyOp : DisplayOp → DisplaySurface → DisplaySurface
  | .opInit config, s => (dowel_display_init config s).2
  | .opShutdown, s => dowel_display_shutdown s
  | .opClear color, s => (dowel_display_clear color s).2
  | .opSetPixel x y color, s => (dowel_display_set_pixel x y color s).2
  | .opFillRect rect color, s => (dowel_display_fill_rect rect color s).2
  | .opDrawLine x0 y0 x1 y1 color, s =>
      (dowel_display_draw_line x0 y0 x1 y1 color s).2
  | .opBlit x y width height data pitch, s =>
      (dowel_display_blit x y width height data pitch s).2
  | .opPresent now, s => (dowel_display_present now s).2
  | .opResetMetrics, s => (dowel_display_reset_metrics s).2
  | .opSetBrightness b, s => (dowel_display_set_brightness b s).2
  | .opSetRotation deg, s => (dowel_display_set_rotation deg s).2
  | .opSetVsync enabled, s => (dowel_display_set_vsync enabled s).2

/-! ## Helper lemmas -/

theorem writePixel_brightness (x y : Nat) (color : DowelColor)
    (s : DisplaySurface) : (writePixel x y color s).brightness = s.brightness := by
  unfold writePixel
  split <;> rfl

theorem plotInt_brightness (x y : Int) (color : DowelColor)
    (s : DisplaySurface) : (plotInt x y color s).brightness = s.brightness := by
  unfold plotInt
  split
  · exact writePixel_brightness _ _ _ _
  · rfl

theorem foldl_brightness {α : Type} (f : DisplaySurface → α → DisplaySurface)
    (hf : ∀ s a, (f s a).brightness = s.brightness) :
    ∀ (l : List α) (s : DisplaySurface), (l.foldl f s).brightness = s.brightness := by
  intro l
  induction l with
  | nil => intro s; rfl
  | cons a l ih =>
    intro s
    simp only [List.foldl_cons]
    rw [ih, hf]

theorem bresLoop_brightness (fuel : Nat) :
    ∀ (st : BresState) (x1 y1 sx sy dx dy : Int) (color : DowelColor)
      (s : DisplaySurface),
      (bresLoop fuel st x1 y1 sx sy dx dy color s).brightness = s.brightness := by
  induction fuel with
  | zero => intro st x1 y1 sx sy dx dy color s; rfl
  | succ n ih =>
    intro st x1 y1 sx sy dx dy color s
    unfold bresLoop
    split
    · exact plotInt_brightness _ _ _ _
    · rw [ih, plotInt_brightness]

theorem fillRectPixels_brightness (rect : DowelRect) (color : DowelColor)
    (s : DisplaySurface) :
    (fillRectPixels rect color s).brightness = s.brightness :=
  foldl_brightness _
    (fun s1 _ => foldl_brightness _
      (fun s2 _ => writePixel_brightness _ _ _ s2) _ s1) _ s

theorem blitPixels_brightness (x y width height : Nat) (data : List Nat)
    (pitch : Nat) (s : DisplaySurface) :
    (blitPixels x y width height data pitch s).brightness = s.brightness :=
  foldl_brightness _
    (fun s1 _ => foldl_brightness _
      (fun s2 _ => writePixel_brightness _ _ _ s2) _ s1) _ s

theorem pixelIndex_lt {x y w h : Nat} (hx : x < w) (hy : y < h) :
    y * w + x < w * h := by
  have h1 : y * w + x < (y + 1) * w := by
    have : y * w + x < y * w + w := Nat.add_lt_add_left hx _
    calc y * w + x < y * w + w := this
      _ = (y + 1) * w := by ring
  have h2 : (y + 1) * w ≤ h * w := Nat.mul_le_mul_right w hy
  calc y * w + x < (y + 1) * w := h1
    _ ≤ h * w := h2
    _ = w * h := Nat.mul_comm h w

/-! ## Concrete surfaces for evaluating the theorems -/

/-- A small 2×2 test configuration. -/
def testConfig : DowelDisplayConfig :=
  { width := 2, height := 2, refresh_rate := 60, pixel_format := .RGBA8888
    vsync := true, fullscreen := false, resizable := false }

/-- The surface obtained by initializing the test configuration. -/
def sInit : DisplaySurface := (dowel_display_init testConfig surface0).2

/-- An opaque red test color. -/
def redColor : DowelColor := ⟨255, 0, 0, 255⟩

/-! ## Claim theorems -/

/-- C1: every stateful display operation (clear, set_pixel, fill_rect,
draw_line, blit, present, get_metrics) invoked while the DisplaySurface
is not initialized returns the `NotInitialized` error and leaves the
pixel buffer, metrics and all surface state unchanged. -/
theorem display_ops_before_init_fail (s : DisplaySurface)
    (color : DowelColor) (x y : Nat) (rect : DowelRect)
    (x0 y0 x1 y1 bx bb bw bh : Nat) (data : List Nat) (pitch : Nat) (now : ℚ)
    (h : s.initialized = false) :
    dowel_display_clear color s = (.NotInitialized, s) ∧
    dowel_display_set_pixel x y color s = (.NotInitialized, s) ∧
    dowel_display_fill_rect rect color s = (.NotInitialized, s) ∧
    dowel_display_draw_line x0 y0 x1 y1 color s = (.NotInitialized, s) ∧
    dowel_display_blit bx bb bw bh data pitch s = (.NotInitialized, s) ∧
    dowel_display_present now s = (.NotInitialized, s) ∧
    dowel_display_get_metrics s = (.NotInitialized, none) := by
  simp [dowel_display_clear, dowel_display_set_pixel, dowel_display_fill_rect,
        dowel_display_draw_line, dowel_display_blit, dowel_display_present,
        dowel_display_get_metrics, h]

/-- Witness for C1: the seven operations, each at a concrete argument on
the concrete uninitialized surface, all fail with `NotInitialized` and
return the surface untouched. -/
theorem display_ops_before_init_fail_witness :
    dowel_display_clear transparentBlack surface0 = (.NotInitialized, surface0) ∧
    dowel_display_set_pixel 0 1 transparentBlack surface0 =
      (.NotInitialized, surface0) ∧
    dowel_display_fill_rect ⟨0, 0, 2, 2⟩ transparentBlack surface0 =
      (.NotInitialized, surface0) ∧
    dowel_display_draw_line 0 0 1 1 transparentBlack surface0 =
      (.NotInitialized, surface0) ∧
    dowel_display_blit 0 0 2 2 [1, 2, 3, 4] 8 surface0 =
      (.NotInitialized, surface0) ∧
    dowel_display_present 16 surface0 = (.NotInitialized, surface0) ∧
    dowel_display_get_metrics surface0 = (.NotInitialized, none) :=
  display_ops_before_init_fail surface0 transparentBlack 0 1 ⟨0, 0, 2, 2⟩
    0 0 1 1 0 0 2 2 [1, 2, 3, 4] 8 16 rfl

/-- C2: on an initialized surface, `set_rotation` with a degree outside
{0, 90, 180, 270} fails with `InvalidParameter` leaving the surface (and
the rotation observed through `get_rotation`) unchanged, and succeeds on
each of the four canonical values. -/
theorem set_rotation_validates_degrees (s : DisplaySurface) (deg : Int)
    (h : s.initialized = true) :
    ((deg ≠ 0 ∧ deg ≠ 90 ∧ deg ≠ 180 ∧ deg ≠ 270) →
      dowel_display_set_rotation deg s = (.InvalidParameter, s) ∧
      dowel_display_get_rotation (dowel_display_set_rotation deg s).2 =
        dowel_display_get_rotation s) ∧
    ((deg = 0 ∨ deg = 90 ∨ deg = 180 ∨ deg = 270) →
      (dowel_display_set_rotation deg s).1 = .Success) := by
  constructor
  · intro hne
    have hcond : ¬(deg = 0 ∨ deg = 90 ∨ deg = 180 ∨ deg = 270) := by
      push_neg
      exact ⟨hne.1, hne.2.1, hne.2.2.1, hne.2.2.2⟩
    simp [dowel_display_set_rotation, h, hcond]
  · intro hval
    simp only [dowel_display_set_rotation, h, if_true]
    rw [if_pos hval]

/-- Witness for C2: on the concrete initialized surface, rotation 45
fails with `InvalidParameter` and changes nothing, rotation 90
succeeds. -/
theorem set_rotation_validates_degrees_witness :
    dowel_display_set_rotation 45 sInit = (.InvalidParameter, sInit) ∧
    dowel_display_get_rotation (dowel_display_set_rotation 45 sInit).2 =
      dowel_display_get_rotation sInit ∧
    (dowel_display_set_rotation 90 sInit).1 = .Success :=
  ⟨((set_rotation_validates_degrees sInit 45 rfl).1 (by decide)).1,
   ((set_rotation_validates_degrees sInit 45 rfl).1 (by decide)).2,
   (set_rotation_validates_degrees sInit 90 rfl).2 (by decide)⟩

/-- C3: on an initialized surface with a well-formed buffer, `set_pixel`
at an in-bounds coordinate writes the pixel (reading it back yields the
written color); at an out-of-range coordinate (x ≥ width or y ≥ height)
it is a no-op leaving the surface unchanged, `get_pixel` returns the
transparent-black sentinel, and neither reports an error. -/
theorem set_pixel_bounds_checked (s : DisplaySurface) (x y : Nat)
    (color : DowelColor) (hinit : s.initialized = true)
    (hbuf : s.buffer.length = s.width * s.height) :
    (x < s.width → y < s.height →
      (dowel_display_set_pixel x y color s).1 = .Success ∧
      dowel_display_get_pixel x y (dowel_display_set_pixel x y color s).2 =
        color) ∧
    (s.width ≤ x ∨ s.height ≤ y →
      dowel_display_set_pixel x y color s = (.Success, s) ∧
      dowel_display_get_pixel x y s = transparentBlack) := by
  constructor
  · intro hx hy
    constructor
    · simp [dowel_display_set_pixel, hinit]
    · simp only [dowel_display_set_pixel, hinit, if_true]
      unfold writePixel
      rw [if_pos ⟨hx, hy⟩]
      simp only [dowel_display_get_pixel]
      rw [if_pos ⟨hx, hy⟩]
      have hidx : y * s.width + x < (s.buffer.set (y * s.width + x) color).length := by
        rw [List.length_set, hbuf]
        exact pixelIndex_lt hx hy
      rw [List.getD_eq_getElem _ _ hidx]
      exact List.getElem_set_self hidx
  · intro hout
    have hcond : ¬(x < s.width ∧ y < s.height) := by omega
    constructor
    · simp [dowel_display_set_pixel, hinit, writePixel, hcond]
    · simp [dowel_display_get_pixel, hcond]

/-- Witness for C3: on the concrete 2×2 initialized surface, writing red
at (1, 0) reads back red; writing at the out-of-range (5, 1) returns the
surface unchanged with `Success`, and reading (5, 1) yields the
transparent-black sentinel. -/
theorem set_pixel_bounds_checked_witness :
    ((dowel_display_set_pixel 1 0 redColor sInit).1 = .Success ∧
     dowel_display_get_pixel 1 0 (dowel_display_set_pixel 1 0 redColor sInit).2 =
       redColor) ∧
    (dowel_display_set_pixel 5 1 redColor sInit = (.Success, sInit) ∧
     dowel_display_get_pixel 5 1 sInit = transparentBlack) :=
  ⟨(set_pixel_bounds_checked sInit 1 0 redColor rfl (by decide)).1
     (by decide) (by decide),
   (set_pixel_bounds_checked sInit 5 1 redColor rfl (by decide)).2
     (by decide)⟩

/-- C4: rectangle intersection is commutative: `rect_intersect(a, b)`
returns the same success flag and the same result rectangle as
`rect_intersect(b, a)`. -/
theorem rect_intersect_comm (a b : DowelRect) :
    dowel_rect_intersect a b = dowel_rect_intersect b a := by
  simp only [dowel_rect_intersect]
  rw [Nat.max_comm a.x b.x, Nat.max_comm a.y b.y,
      Nat.min_comm (a.x + a.width) (b.x + b.width),
      Nat.min_comm (a.y + a.height) (b.y + b.height)]

/-- C5: two rectangles that share only an edge (boundaries touch,
interiors disjoint) intersect to nothing: `rect_intersect` reports no
intersection. -/
theorem rect_intersect_edge_touch_empty (a b : DowelRect)
    (h : sharesOnlyEdge a b) : (dowel_rect_intersect a b).1 = false := by
  have hno : ¬(max a.x b.x < min (a.x + a.width) (b.x + b.width) ∧
               max a.y b.y < min (a.y + a.height) (b.y + b.height)) := h.2
  simp only [dowel_rect_intersect]
  rw [if_neg hno]

/-- Witness for C5: the boxes [0,10)×[0,10) and [10,20)×[0,10) share only
the edge x = 10 and their intersection is reported empty. -/
theorem rect_intersect_edge_touch_empty_witness :
    (dowel_rect_intersect ⟨0, 0, 10, 10⟩ ⟨10, 0, 10, 10⟩).1 = false :=
  rect_intersect_edge_touch_empty ⟨0, 0, 10, 10⟩ ⟨10, 0, 10, 10⟩ (by decide)

/-- C7: `present` on an initialized surface succeeds and leaves the pixel
content of the framebuffer unchanged: the buffer is equal before and
after, and every pixel readable before the call reads the same value
after it. -/
theorem present_preserves_pixels (s : DisplaySurface) (now : ℚ) (x y : Nat)
    (h : s.initialized = true) :
    (dowel_display_present now s).1 = .Success ∧
    ((dowel_display_present now s).2).buffer = s.buffer ∧
    dowel_display_get_pixel x y (dowel_display_present now s).2 =
      dowel_display_get_pixel x y s := by
  simp [dowel_display_present, h, dowel_display_get_pixel]

/-- Witness for C7: presenting the concrete 2×2 initialized surface at
time 16 succeeds, preserves the buffer, and reads back pixel (0, 0)
unchanged. -/
theorem present_preserves_pixels_witness :
    (dowel_display_present 16 sInit).1 = .Success ∧
    ((dowel_display_present 16 sInit).2).buffer = sInit.buffer ∧
    dowel_display_get_pixel 0 0 (dowel_display_present 16 sInit).2 =
      dowel_display_get_pixel 0 0 sInit :=
  present_preserves_pixels sInit 16 0 0 rfl

/-- C8: `dowel_core_init` always returns 0 and leaves the system
initialized; `dowel_core_shutdown` leaves it uninitialized; repeating
either call preserves these postconditions, from every prior state. -/
theorem core_init_shutdown_postconditions (s : CoreState) :
    (dowel_core_init s).1 = 0 ∧
    dowel_core_is_initialized (dowel_core_init s).2 = true ∧
    dowel_core_is_initialized (dowel_core_shutdown s) = false ∧
    (dowel_core_init (dowel_core_init s).2).1 = 0 ∧
    dowel_core_is_initialized (dowel_core_init (dowel_core_init s).2).2 = true ∧
    dowel_core_is_initialized (dowel_core_shutdown (dowel_core_shutdown s)) =
      false := by
  simp [dowel_core_init, dowel_core_shutdown, dowel_core_is_initialized]

/-- C9: `dowel_string_length` returns 0 for a NULL argument — the same
value as for the empty string, not a negative error code — and the
C string length for every non-NULL argument. -/
theorem string_length_null_is_zero :
    dowel_string_length none = 0 ∧
    dowel_string_length (some []) = 0 ∧
    (∀ bytes : List Nat, dowel_string_length (some bytes) = (strlen bytes : Int)) ∧
    ∀ str : Option (List Nat), 0 ≤ dowel_string_length str := by
  refine ⟨rfl, rfl, fun _ => rfl, ?_⟩
  intro str
  cases str with
  | none => simp [dowel_string_length]
  | some bytes => simp [dowel_string_length]

/-- C6: `set_brightness` clamps into [0.0, 1.0] — on an initialized
surface, setting -0.5 reads back 0.0 and setting 2.0 reads back 1.0 —
and every operation of the display state machine preserves the invariant
that the surface's brightness lies in [0.0, 1.0]. -/
theorem brightness_clamped_invariant (s t : DisplaySurface) (op : DisplayOp)
    (hinit : s.initialized = true)
    (hlo : 0 ≤ t.brightness) (hhi : t.brightness ≤ 1) :
    dowel_display_get_brightness
      ((dowel_display_set_brightness (-(1 : ℚ)/2) s).2) = 0 ∧
    dowel_display_get_brightness
      ((dowel_display_set_brightness 2 s).2) = 1 ∧
    (0 ≤ (applyOp op t).brightness ∧ (applyOp op t).brightness ≤ 1) := by
  refine ⟨?_, ?_, ?_⟩
  · simp only [dowel_display_set_brightness, hinit, if_true,
               dowel_display_get_brightness]
    norm_num [max_def, min_def]
  · simp only [dowel_display_set_brightness, hinit, if_true,
               dowel_display_get_brightness]
    norm_num [max_def, min_def]
  · cases op with
    | opInit config =>
      simp only [applyOp, dowel_display_init]
      split
      · exact ⟨hlo, hhi⟩
      · exact ⟨by norm_num, by norm_num⟩
    | opShutdown =>
      exact ⟨by norm_num [applyOp, dowel_display_shutdown, surface0],
             by norm_num [applyOp, dowel_display_shutdown, surface0]⟩
    | opClear color =>
      simp only [applyOp, dowel_display_clear]
      split <;> exact ⟨hlo, hhi⟩
    | opSetPixel x y color =>
      simp only [applyOp, dowel_display_set_pixel]
      split
      · rw [show ((DowelDisplayError.Success, writePixel x y color t)).2 =
              writePixel x y color t from rfl, writePixel_brightness]
        exact ⟨hlo, hhi⟩
      · exact ⟨hlo, hhi⟩
    | opFillRect rect color =>
      simp only [applyOp, dowel_display_fill_rect]
      split
      · rw [show ((DowelDisplayError.Success, fillRectPixels rect color t)).2 =
              fillRectPixels rect color t from rfl, fillRectPixels_brightness]
        exact ⟨hlo, hhi⟩
      · exact ⟨hlo, hhi⟩
    | opDrawLine x0 y0 x1 y1 color =>
      simp only [applyOp, dowel_display_draw_line]
      split
      · rw [bresLoop_brightness]
        exact ⟨hlo, hhi⟩
      · exact ⟨hlo, hhi⟩
    | opBlit x y width height data pitch =>
      simp only [applyOp, dowel_display_blit]
      split
      · rw [show ((DowelDisplayError.Success,
                   blitPixels x y width height data pitch t)).2 =
              blitPixels x y width height data pitch t from rfl,
            blitPixels_brightness]
        exact ⟨hlo, hhi⟩
      · exact ⟨hlo, hhi⟩
    | opPresent now =>
      simp only [applyOp, dowel_display_present]
      split <;> exact ⟨hlo, hhi⟩
    | opResetMetrics =>
      simp only [applyOp, dowel_display_reset_metrics]
      split <;> exact ⟨hlo, hhi⟩
    | opSetBrightness b =>
      simp only [applyOp, dowel_display_set_brightness]
      split
      · exact ⟨le_max_left 0 _, max_le (by norm_num) (min_le_left 1 b)⟩
      · exact ⟨hlo, hhi⟩
    | opSetRotation deg =>
      simp only [applyOp, dowel_display_set_rotation]
      split
      · split <;> exact ⟨hlo, hhi⟩
      · exact ⟨hlo, hhi⟩
    | opSetVsync enabled =>
      simp only [applyOp, dowel_display_set_vsync]
      split <;> exact ⟨hlo, hhi⟩

/-- Witness for C6: on the concrete 2×2 initialized surface the two clamp
facts hold, and the step `set_brightness 5` keeps brightness in
[0.0, 1.0]. -/
theorem brightness_clamped_invariant_witness :
    dowel_display_get_brightness
      ((dowel_display_set_brightness (-(1 : ℚ)/2) sInit).2) = 0 ∧
    dowel_display_get_brightness
      ((dowel_display_set_brightness 2 sInit).2) = 1 ∧
    (0 ≤ (applyOp (.opSetBrightness 5) sInit).brightness ∧
     (applyOp (.opSetBrightness 5) sInit).brightness ≤ 1) :=
  brightness_clamped_invariant sInit sInit (.opSetBrightness 5) rfl
    (by decide) (by decide)

/-- Run a sequence of `dowel_config_set_string` calls (each a key/value
pair of possibly-NULL C strings) against a starting buffer state,
keeping only the resulting state. -/
def runSets (evs : List (Option (List Nat) × Option (List Nat)))
    (s : ConfigState) : ConfigState :=
  evs.foldl (fun st e => (dowel_config_set_string e.1 e.2 st).2) s

/-- C10 counterexample: the claim "the default d is returned only while
no non-empty value has ever been stored or when the key argument is
NULL" is false: starting from the empty buffer, storing the non-empty
value [97] and then successfully storing the empty string empties the
buffer again, after which a get with the non-NULL key [106] returns the
default [100] even though a non-empty value had been stored. -/
theorem config_get_default_only_claim_false :
    ¬ (∀ (evs : List (Option (List Nat) × Option (List Nat)))
         (k2 : Option (List Nat)) (d : List Nat),
          k2 ≠ none →
          (∃ p ∈ evs, ∃ k v, p = (some k, some v) ∧ v ≠ []) →
          dowel_config_get_string k2 d (runSets evs []) ≠ d) := by
  intro hclaim
  have hmem : ∃ p ∈ [((some [107] : Option (List Nat)), (some [97] : Option (List Nat))),
                     (some [107], some [])],
      ∃ k v, p = (some k, some v) ∧ v ≠ [] :=
    ⟨(some [107], some [97]), by simp, [107], [97], rfl, by simp⟩
  have hne := hclaim [(some [107], some [97]), (some [107], some [])]
    (some [106]) [100] (by simp) hmem
  exact hne rfl

/-- C10 as amended: `dowel_config_get_string` ignores its key beyond the
NULL check, but against a single always-overwritable store: a set with
non-NULL key and non-empty value v (fitting the 1023-byte buffer)
succeeds, and a following get returns v for every non-NULL key —
including keys never set — and the default for a NULL key; in general
the default is returned exactly when the key is NULL or the currently
stored value is empty (no set succeeded since the last store of an
empty value). -/
theorem config_get_ignores_key_amended (k v s d dd ss : List Nat)
    (k2 kk : Option (List Nat))
    (hv : v ≠ []) (hlen : v.length ≤ 1023)
    (hkk : kk ≠ none) (hss : ss ≠ []) :
    (dowel_config_set_string (some k) (some v) s).1 = 0 ∧
    dowel_config_get_string k2 d (dowel_config_set_string (some k) (some v) s).2 =
      (if k2 = none then d else v) ∧
    dowel_config_get_string kk dd ss = ss := by
  refine ⟨rfl, ?_, ?_⟩
  · have hstate : (dowel_config_set_string (some k) (some v) s).2 = v := by
      simp only [dowel_config_set_string]
      exact List.take_of_length_le hlen
    rw [hstate]
    cases k2 with
    | none => simp [dowel_config_get_string]
    | some kb =>
      have hpos : 0 < v.length := List.length_pos.mpr hv
      simp [dowel_config_get_string, hpos]
  · cases kk with
    | none => exact absurd rfl hkk
    | some kb =>
      have hpos : 0 < ss.length := List.length_pos.mpr hss
      simp [dowel_config_get_string, hpos]

/-- Witness for the amended C10: storing value [97] under key [107] in
the empty buffer succeeds; a get with the different non-NULL key [106]
returns [97], not the default [100]; and on the non-empty state [5] a
get with key [1] returns [5], not its default [9]. -/
theorem config_get_ignores_key_amended_witness :
    (dowel_config_set_string (some [107]) (some [97]) []).1 = 0 ∧
    dowel_config_get_string (some [106]) [100]
      (dowel_config_set_string (some [107]) (some [97]) []).2 =
      (if (some [106] : Option (List Nat)) = none then [100] else [97]) ∧
    dowel_config_get_string (some [1]) [9] [5] = [5] :=
  config_get_ignores_key_amended [107] [97] [] [100] [9] [5]
    (some [106]) (some [1]) (by simp) (by simp) (by simp) (by simp)
